import Mathlib

/-!
Verification development for the AI-LTH medicine-information client.
The definitions below are a shallow embedding of the JavaScript/React
source files (MessageBubble.jsx, ImageUploader.jsx, CameraCapture,
ChatBox, AutoComplete.jsx, VoiceInput.jsx, Sidebar, App.jsx).
JavaScript truthiness is modelled explicitly: an absent field is
`Option.none`, an empty string is falsy, an array is always truthy.
-/

/-- The sentinel string used by the backend for an unavailable field. -/
def sentinel : String := "Information not available"

/-- A backend `side_effects` value: absent, a scalar string, or an array
of strings (the only shapes the renderers distinguish). -/
inductive SeVal where
  | absent : SeVal
  | str : String → SeVal
  | arr : List String → SeVal
deriving DecidableEq

/-- JavaScript strict inequality `v[0] !== w` where the index read may be
`undefined` (modelled as `none`); `undefined !== w` is true. -/
def jsIndexNe (v : Option String) (w : String) : Bool :=
  match v with
  | none => true
  | some c => c != w

/-- Chat rendering of `message.data.side_effects` (MessageBubble.jsx
lines 54-70): guard is truthiness, then `.length > 0`, then
`[0] !== sentinel`; a scalar passing the guard is rendered as a single
list item (the non-Array branch of the JSX), an array is mapped
verbatim. For a scalar, `[0]` is its first character as a string. -/
def chatSideEffects : SeVal → Option (List String)
  | SeVal.absent => none
  | SeVal.str s =>
      if (s != "") && decide (0 < s.length)
          && jsIndexNe (s.toList.head?.map String.singleton) sentinel
      then some [s] else none
  | SeVal.arr l =>
      if decide (0 < l.length) && jsIndexNe l.head? sentinel
      then some l else none

/-- Image-upload rendering of `result.side_effects` (ImageUploader.jsx
line 119): guard is truthiness, then `Array.isArray`, then
`[0] !== sentinel`; there is no emptiness check, and a scalar never
renders because `Array.isArray` fails on it. -/
def imageSideEffects : SeVal → Option (List String)
  | SeVal.absent => none
  | SeVal.str _ => none
  | SeVal.arr l =>
      if jsIndexNe l.head? sentinel then some l else none

/-- Camera-scan rendering of `result.side_effects` (CameraCapture
line 225), textually identical to the image-upload guard. -/
def cameraSideEffects : SeVal → Option (List String)
  | SeVal.absent => none
  | SeVal.str _ => none
  | SeVal.arr l =>
      if jsIndexNe l.head? sentinel then some l else none

/-- Modelled from the spec wording of claim C1: a scalar string
normalizes to a single-element sequence, a sequence is copied
verbatim. -/
def claimedNormalizeSideEffects : SeVal → Option (List String)
  | SeVal.absent => none
  | SeVal.str s => some [s]
  | SeVal.arr l => some l

/-- Modelled from the spec wording of claim C1: the section is
suppressed when the normalized sequence is empty or its first element
is the sentinel, and rendered verbatim otherwise. -/
def claimedRenderSideEffects (v : SeVal) : Option (List String) :=
  match claimedNormalizeSideEffects v with
  | none => none
  | some [] => none
  | some (h :: t) => if h = sentinel then none else some (h :: t)

/-- Rendering of the `uses` field in the chat path (MessageBubble.jsx
line 46): rendered only when truthy and distinct from both "N/A" and
the sentinel. -/
def chatRenderUses : Option String → Option String
  | none => none
  | some u =>
      if (u != "") && (u != "N/A") && (u != sentinel) then some u else none

/-- Rendering of the `uses` field in the image-upload path
(ImageUploader.jsx line 111), identical guard to the chat path. -/
def imageRenderUses : Option String → Option String
  | none => none
  | some u =>
      if (u != "") && (u != "N/A") && (u != sentinel) then some u else none

/-- Rendering of the `uses` field in the camera-scan path
(CameraCapture line 217), identical guard to the chat path. -/
def cameraRenderUses : Option String → Option String
  | none => none
  | some u =>
      if (u != "") && (u != "N/A") && (u != sentinel) then some u else none

lemma singleton_ne_sentinel (c : Char) : String.singleton c ≠ sentinel := by
  intro h
  have hlen : (String.singleton c).length = sentinel.length := by rw [h]
  have h1 : (String.singleton c).length = 1 := rfl
  have h25 : sentinel.length = 25 := rfl
  rw [h1, h25] at hlen
  exact absurd hlen (by decide)

/-- Claim C1 counterexample: in the image-upload path a scalar
side-effects string is suppressed entirely, while the claim says it
normalizes to a single-element sequence and is rendered. -/
theorem c1_counterexample :
    imageSideEffects (SeVal.str "May cause drowsiness")
      ≠ claimedRenderSideEffects (SeVal.str "May cause drowsiness") := by
  decide

/-- Claim C1 (amended): in the chat path an array value follows the
claimed normalize-then-suppress semantics exactly, while a scalar
string is rendered as a single-element sequence whenever it is
non-empty — including when it equals the sentinel; in the image-upload
and camera paths (which agree with each other) a scalar value never
renders, and an array is suppressed exactly when its first element is
the sentinel, with no suppression of the empty array. -/
theorem c1_side_effects_rendering (s : String) (l : List String) :
    chatSideEffects (SeVal.arr l) = claimedRenderSideEffects (SeVal.arr l)
    ∧ chatSideEffects (SeVal.str s) = (if s = "" then none else some [s])
    ∧ imageSideEffects (SeVal.str s) = none
    ∧ cameraSideEffects (SeVal.str s) = none
    ∧ imageSideEffects (SeVal.arr l)
        = (if l.head? = some sentinel then none else some l)
    ∧ cameraSideEffects (SeVal.arr l) = imageSideEffects (SeVal.arr l)
    ∧ chatSideEffects SeVal.absent = none
    ∧ imageSideEffects SeVal.absent = none := by
  refine ⟨?_, ?_, rfl, rfl, ?_, rfl, rfl, rfl⟩
  case refine_3 =>
    cases l with
    | nil => rfl
    | cons h t =>
        by_cases hs : h = sentinel
        · simp [imageSideEffects, jsIndexNe, hs]
        · simp [imageSideEffects, jsIndexNe, hs]
  · cases l with
    | nil => rfl
    | cons h t =>
        by_cases hs : h = sentinel
        · simp [chatSideEffects, claimedRenderSideEffects,
            claimedNormalizeSideEffects, jsIndexNe, hs]
        · simp [chatSideEffects, claimedRenderSideEffects,
            claimedNormalizeSideEffects, jsIndexNe, hs]
  · cases hs : s with
    | mk cs =>
      cases cs with
      | nil => rfl
      | cons c rest =>
          have hne : String.mk (c :: rest) ≠ "" := by
            intro h
            exact absurd (congrArg String.data h) (by simp)
          have hchar : String.singleton c ≠ sentinel :=
            singleton_ne_sentinel c
          simp [chatSideEffects, jsIndexNe, hne, hchar, String.toList]

/-- Claim C2: in all three rendering paths, a rendered `uses` value is
never the literal "N/A" and never the sentinel "Information not
available". -/
theorem c2_uses_suppression (v : Option String) (s : String)
    (h : chatRenderUses v = some s ∨ imageRenderUses v = some s
      ∨ cameraRenderUses v = some s) :
    s ≠ "N/A" ∧ s ≠ sentinel := by
  have hone : ∀ u : String,
      (if (u != "") && (u != "N/A") && (u != sentinel) then some u else none)
        = some s → s ≠ "N/A" ∧ s ≠ sentinel := by
    intro u hu
    by_cases hc : ((u != "") && (u != "N/A") && (u != sentinel)) = true
    · rw [if_pos hc] at hu
      cases hu
      simp only [Bool.and_eq_true, bne_iff_ne, ne_eq] at hc
      exact ⟨hc.1.2, hc.2⟩
    · rw [if_neg hc] at hu
      exact absurd hu (by simp)
  cases v with
  | none =>
      rcases h with h | h | h <;>
        simp [chatRenderUses, imageRenderUses, cameraRenderUses] at h
  | some u =>
      rcases h with h | h | h
      · exact hone u (by simpa [chatRenderUses] using h)
      · exact hone u (by simpa [imageRenderUses] using h)
      · exact hone u (by simpa [cameraRenderUses] using h)

/-- The fields an error object exposes to the failure-message
computation: the backend response body fields (reached through
`err.response?.data?`) and the transport error message (`err.message`).
An absent field is `none`; JavaScript `||` treats `some ""` as falsy. -/
structure ErrObj where
  respMessage : Option String
  respSuggestion : Option String
  errMessage : Option String
deriving DecidableEq

/-- JavaScript `a || b` specialised to an optional string on the left
and an already-computed string on the right: falsy means absent or
empty. -/
def jsOrStr (a : Option String) (b : String) : String :=
  match a with
  | none => b
  | some s => if s = "" then b else s

/-- Generic fallback of the chat path (part_002 line 60). -/
def chatFallback : String :=
  "Sorry, I could not find information about that medicine. Please check the spelling or try another name."

/-- Generic fallback of the image-upload path (ImageUploader.jsx line 32). -/
def imageFallback : String := "Failed to process image. Please try again."

/-- Generic fallback of the camera path (part_003 line 94). -/
def cameraFallback : String := "Failed to analyze image. Please try again."

/-- Failure message of the chat path (part_002 line 60):
`error.response?.data?.message || error.response?.data?.suggestion ||
chatFallback`. -/
def chatErrorMessage (e : ErrObj) : String :=
  jsOrStr e.respMessage (jsOrStr e.respSuggestion chatFallback)

/-- Failure message of the image-upload path (ImageUploader.jsx
line 32): `err.response?.data?.message || err.response?.data?.suggestion
|| err.message || imageFallback`. -/
def imageErrorMessage (e : ErrObj) : String :=
  jsOrStr e.respMessage
    (jsOrStr e.respSuggestion (jsOrStr e.errMessage imageFallback))

/-- Failure message of the camera path (part_003 line 94):
`err.response?.data?.message || err.response?.data?.suggestion ||
err.message || cameraFallback`. -/
def cameraErrorMessage (e : ErrObj) : String :=
  jsOrStr e.respMessage
    (jsOrStr e.respSuggestion (jsOrStr e.errMessage cameraFallback))

/-- First present field of a list, else the fallback. -/
def firstPresent (fields : List (Option String)) (fallback : String) : String :=
  match fields with
  | [] => fallback
  | none :: rest => firstPresent rest fallback
  | some s :: _ => s

/-- Modelled from the spec wording of claim C3: the shown message is
the backend message field if present, else the backend suggestion field
if present, else the generic fallback — with no other value
interposed. -/
def claimedFailureMessage (fallback : String) (e : ErrObj) : String :=
  firstPresent [e.respMessage, e.respSuggestion] fallback

/-- Claim C3 counterexample: on a transport failure with no backend
response body, the image-upload path shows the transport error message
"Network Error" instead of going straight to the generic fallback the
claim mandates. -/
theorem c3_counterexample :
    imageErrorMessage
        { respMessage := none, respSuggestion := none,
          errMessage := some "Network Error" }
      ≠ claimedFailureMessage imageFallback
        { respMessage := none, respSuggestion := none,
          errMessage := some "Network Error" } := by
  decide

/-- Claim C3 (amended): provided no field is present-but-empty, the
chat path follows the order backend message, then backend suggestion,
then its generic fallback; the image-upload and camera paths interpose
the transport error message between the backend suggestion and their
generic fallback. -/
theorem c3_failure_message_order (e : ErrObj)
    (hm : e.respMessage ≠ some "") (hs : e.respSuggestion ≠ some "")
    (he : e.errMessage ≠ some "") :
    chatErrorMessage e
        = firstPresent [e.respMessage, e.respSuggestion] chatFallback
    ∧ imageErrorMessage e
        = firstPresent [e.respMessage, e.respSuggestion, e.errMessage]
          imageFallback
    ∧ cameraErrorMessage e
        = firstPresent [e.respMessage, e.respSuggestion, e.errMessage]
          cameraFallback := by
  obtain ⟨m, s, t⟩ := e
  cases m with
  | some mv =>
      have hmv : mv ≠ "" := by
        intro h
        exact hm (by rw [h])
      simp [chatErrorMessage, imageErrorMessage, cameraErrorMessage,
        jsOrStr, firstPresent, hmv]
  | none =>
      cases s with
      | some sv =>
          have hsv : sv ≠ "" := by
            intro h
            exact hs (by rw [h])
          simp [chatErrorMessage, imageErrorMessage, cameraErrorMessage,
            jsOrStr, firstPresent, hsv]
      | none =>
          cases t with
          | some tv =>
              have htv : tv ≠ "" := by
                intro h
                exact he (by rw [h])
              simp [chatErrorMessage, imageErrorMessage, cameraErrorMessage,
                jsOrStr, firstPresent, htv]
          | none =>
              simp [chatErrorMessage, imageErrorMessage, cameraErrorMessage,
                jsOrStr, firstPresent]

/-- Witness for claim C3 at a concrete error object carrying only a
backend suggestion. -/
theorem c3_failure_message_order_witness :
    ((⟨none, some "Did you mean Panadol", none⟩ : ErrObj).respMessage ≠ some ""
    ∧ (⟨none, some "Did you mean Panadol", none⟩ : ErrObj).respSuggestion ≠ some ""
    ∧ (⟨none, some "Did you mean Panadol", none⟩ : ErrObj).errMessage ≠ some "")
    ∧ (chatErrorMessage ⟨none, some "Did you mean Panadol", none⟩
        = firstPresent [none, some "Did you mean Panadol"] chatFallback
      ∧ imageErrorMessage ⟨none, some "Did you mean Panadol", none⟩
        = firstPresent [none, some "Did you mean Panadol", none] imageFallback
      ∧ cameraErrorMessage ⟨none, some "Did you mean Panadol", none⟩
        = firstPresent [none, some "Did you mean Panadol", none]
          cameraFallback) :=
  ⟨⟨by decide, by decide, by decide⟩,
   c3_failure_message_order ⟨none, some "Did you mean Panadol", none⟩
     (by decide) (by decide) (by decide)⟩

/-- Witness for claim C2 at a concrete rendered value. -/
theorem c2_uses_suppression_witness :
    (chatRenderUses (some "Relieves pain") = some "Relieves pain"
      ∨ imageRenderUses (some "Relieves pain") = some "Relieves pain"
      ∨ cameraRenderUses (some "Relieves pain") = some "Relieves pain")
    ∧ ("Relieves pain" ≠ "N/A" ∧ "Relieves pain" ≠ sentinel) :=
  ⟨Or.inl (by decide),
   c2_uses_suppression (some "Relieves pain") "Relieves pain"
     (Or.inl (by decide))⟩

/-- One entry of the ChatBox message list (part_002): a user message or
an assistant message, the latter carrying its error flag. -/
inductive CMsg where
  | user : String → CMsg
  | ai : String → Bool → CMsg
deriving DecidableEq

/-- The ChatBox component state (part_002 lines 6-8) together with the
log of outbound requests issued through `queryMedicine`. -/
structure ChatState where
  messages : List CMsg
  input : String
  loading : Bool
  requests : List String
deriving DecidableEq

/-- Events driving the ChatBox: editing the input field, a form submit,
and the resolution of the in-flight request (success or failure). -/
inductive ChatEvent where
  | setInput : String → ChatEvent
  | submit : ChatEvent
  | respond : String → Bool → ChatEvent
deriving DecidableEq

/-- One step of the ChatBox (part_002 lines 27-68): `handleSubmit`
returns immediately when the trimmed input is empty or a request is
loading; otherwise it appends the user message, clears the input, sets
loading and issues the request. A response appends the assistant (or
error) message for the unique in-flight request and clears loading. -/
def chatStep (s : ChatState) (e : ChatEvent) : ChatState :=
  match e with
  | ChatEvent.setInput v => { s with input := v }
  | ChatEvent.submit =>
      if s.input.trim = "" ∨ s.loading = true then s
      else
        { messages := s.messages ++ [CMsg.user s.input], input := "",
          loading := true, requests := s.requests ++ [s.input] }
  | ChatEvent.respond c isErr =>
      if s.loading = true then
        { s with messages := s.messages ++ [CMsg.ai c isErr],
                 loading := false }
      else s

/-- Run the ChatBox over a list of events. -/
def chatRun (s : ChatState) : List ChatEvent → ChatState
  | [] => s
  | e :: es => chatRun (chatStep s e) es

/-- Initial ChatBox state (part_002 lines 6-8). -/
def chatInit : ChatState :=
  { messages := [], input := "", loading := false, requests := [] }

/-- Well-formed turn shape of a message log: completed turns, each a
user message immediately followed by its assistant message, with one
trailing user message pending exactly when a request is loading. -/
inductive Turns : List CMsg → Bool → Prop
  | nil : Turns [] false
  | pend (t : String) : Turns [CMsg.user t] true
  | turn (t c : String) (isErr : Bool) (rest : List CMsg) (b : Bool) :
      Turns rest b → Turns (CMsg.user t :: CMsg.ai c isErr :: rest) b

/-- The user-message contents of a message log, in order. -/
def userTexts : List CMsg → List String
  | [] => []
  | CMsg.user t :: rest => t :: userTexts rest
  | CMsg.ai _ _ :: rest => userTexts rest

/-- The submissions a trace gets past the `handleSubmit` guard,
computed from the guard logic alone (input field and loading flag),
independently of the message log. -/
def acceptedSubs (inp : String) (ld : Bool) : List ChatEvent → List String
  | [] => []
  | ChatEvent.setInput v :: es => acceptedSubs v ld es
  | ChatEvent.submit :: es =>
      if inp.trim = "" ∨ ld = true then acceptedSubs inp ld es
      else inp :: acceptedSubs "" true es
  | ChatEvent.respond _ _ :: es =>
      if ld = true then acceptedSubs inp false es
      else acceptedSubs inp ld es

lemma turns_append_user {l : List CMsg} (t : String)
    (h : Turns l false) : Turns (l ++ [CMsg.user t]) true := by
  generalize hb : false = b at h
  induction h with
  | nil => exact Turns.pend t
  | pend u => exact absurd hb (by decide)
  | turn u c isErr rest b hrest ih =>
      exact Turns.turn u c isErr (rest ++ [CMsg.user t]) true (ih hb)

lemma turns_append_ai {l : List CMsg} (c : String) (isErr : Bool)
    (h : Turns l true) : Turns (l ++ [CMsg.ai c isErr]) false := by
  generalize hb : true = b at h
  induction h with
  | nil => exact absurd hb (by decide)
  | pend u => exact Turns.turn u c isErr [] false Turns.nil
  | turn u d de rest b hrest ih =>
      exact Turns.turn u d de (rest ++ [CMsg.ai c isErr]) false (ih hb)

lemma userTexts_append (l m : List CMsg) :
    userTexts (l ++ m) = userTexts l ++ userTexts m := by
  induction l with
  | nil => rfl
  | cons hd tl ih =>
      cases hd with
      | user t => simp [userTexts, ih]
      | ai c isErr => simp [userTexts, ih]

lemma chatRun_invariant (evs : List ChatEvent) :
    ∀ s : ChatState, Turns s.messages s.loading →
      Turns (chatRun s evs).messages (chatRun s evs).loading
      ∧ userTexts (chatRun s evs).messages
          = userTexts s.messages ++ acceptedSubs s.input s.loading evs := by
  induction evs with
  | nil => intro s hs; exact ⟨hs, by simp [chatRun, acceptedSubs]⟩
  | cons e es ih =>
      intro s hs
      cases e with
      | setInput v =>
          have h := ih { s with input := v } hs
          exact ⟨h.1, by simpa [chatRun, chatStep, acceptedSubs] using h.2⟩
      | submit =>
          by_cases hg : s.input.trim = "" ∨ s.loading = true
          · have h := ih s hs
            constructor
            · simpa [chatRun, chatStep, hg] using h.1
            · simpa [chatRun, chatStep, acceptedSubs, hg] using h.2
          · have hld : s.loading = false := by
              cases hl : s.loading with
              | false => rfl
              | true => exact absurd (Or.inr hl) hg
            have hnext : Turns (s.messages ++ [CMsg.user s.input]) true := by
              apply turns_append_user
              rw [← hld]
              exact hs
            have h := ih
              { messages := s.messages ++ [CMsg.user s.input], input := "",
                loading := true, requests := s.requests ++ [s.input] } hnext
            constructor
            · simpa [chatRun, chatStep, hg] using h.1
            · have h2 := h.2
              simp only [userTexts_append] at h2
              simpa [chatRun, chatStep, acceptedSubs, hg, userTexts]
                using h2
      | respond c isErr =>
          by_cases hg : s.loading = true
          · have hnext : Turns (s.messages ++ [CMsg.ai c isErr]) false := by
              apply turns_append_ai
              rw [← hg]
              exact hs
            have h := ih
              { s with messages := s.messages ++ [CMsg.ai c isErr],
                       loading := false } hnext
            constructor
            · simpa [chatRun, chatStep, hg] using h.1
            · have h2 := h.2
              simp only [userTexts_append] at h2
              simpa [chatRun, chatStep, acceptedSubs, hg, userTexts]
                using h2
          · have h := ih s hs
            constructor
            · simpa [chatRun, chatStep, hg] using h.1
            · simpa [chatRun, chatStep, acceptedSubs, hg] using h.2

/-- Claim C4: over any event trace from the initial ChatBox state, the
message log consists of the accepted submissions in submission order —
each accepted submission appends its user message, its assistant (or
error) reply is appended before any later submission can be accepted
(the `Turns` shape), and the user messages, in log order, are exactly
the accepted submissions in trace order. -/
theorem c4_append_order (evs : List ChatEvent) :
    Turns (chatRun chatInit evs).messages (chatRun chatInit evs).loading
    ∧ userTexts (chatRun chatInit evs).messages
        = acceptedSubs "" false evs := by
  have h := chatRun_invariant evs chatInit Turns.nil
  exact ⟨h.1, by simpa [chatInit, userTexts] using h.2⟩

/-- Claim C5: when the input is empty or whitespace-only, or a request
is already loading, a submit leaves the whole ChatBox state unchanged —
in particular the message log and the outbound request log. -/
theorem c5_submit_guard (s : ChatState)
    (h : s.input.trim = "" ∨ s.loading = true) :
    chatStep s ChatEvent.submit = s := by
  simp [chatStep, h]

/-- Witness for claim C5 at a state with a request already loading. -/
theorem c5_submit_guard_witness :
    ((⟨[], "Panadol", true, ["Panadol"]⟩ : ChatState).input.trim = ""
      ∨ (⟨[], "Panadol", true, ["Panadol"]⟩ : ChatState).loading = true)
    ∧ chatStep ⟨[], "Panadol", true, ["Panadol"]⟩ ChatEvent.submit
        = ⟨[], "Panadol", true, ["Panadol"]⟩ :=
  ⟨Or.inr rfl,
   c5_submit_guard ⟨[], "Panadol", true, ["Panadol"]⟩ (Or.inr rfl)⟩

/-- Lower-casing as used through `.toLowerCase()` in AutoComplete.jsx,
modelled character-wise. -/
def jsToLower (s : String) : String :=
  String.mk (s.toList.map Char.toLower)

/-- JavaScript `hay.includes(pat)`: some contiguous slice of `hay`
equals `pat`. -/
def jsIncludes (hay pat : String) : Bool :=
  (List.range (hay.toList.length + 1)).any fun i =>
    List.take pat.toList.length (List.drop i hay.toList) == pat.toList

/-- The suggestion computation of AutoComplete.jsx lines 21-32: for a
non-empty value, filter the cached directory by case-insensitive
substring inclusion and keep the first five; for the empty value the
suggestion list is empty. -/
def suggestFilter (allMedicines : List String) (value : String) : List String :=
  if 0 < value.length then
    (allMedicines.filter fun med =>
      jsIncludes (jsToLower med) (jsToLower value)).take 5
  else []

/-- Claim C6: the empty query always yields no suggestions; any query
yields at most five suggestions, and every suggestion contains the
query case-insensitively as a substring. -/
theorem c6_suggestions (allMedicines : List String) (x m : String)
    (hm : m ∈ suggestFilter allMedicines x) :
    suggestFilter allMedicines "" = []
    ∧ (suggestFilter allMedicines x).length ≤ 5
    ∧ jsIncludes (jsToLower m) (jsToLower x) = true := by
  refine ⟨rfl, ?_, ?_⟩
  · by_cases h : 0 < x.length
    · rw [suggestFilter, if_pos h]
      exact List.length_take_le 5 _
    · rw [suggestFilter, if_neg h]
      exact Nat.zero_le 5
  · by_cases h : 0 < x.length
    · rw [suggestFilter, if_pos h] at hm
      exact (List.mem_filter.mp (List.mem_of_mem_take hm)).2
    · rw [suggestFilter, if_neg h] at hm
      cases hm

/-- Witness for claim C6 on a concrete two-entry directory. -/
theorem c6_suggestions_witness :
    "Panadol" ∈ suggestFilter ["Panadol", "Aspirin"] "PAN"
    ∧ (suggestFilter ["Panadol", "Aspirin"] "" = []
      ∧ (suggestFilter ["Panadol", "Aspirin"] "PAN").length ≤ 5
      ∧ jsIncludes (jsToLower "Panadol") (jsToLower "PAN") = true) :=
  ⟨by decide,
   c6_suggestions ["Panadol", "Aspirin"] "PAN" "Panadol" (by decide)⟩

/-- One media track of the acquired camera stream, carrying whether
`track.stop()` has been called on it. -/
structure MediaTrack where
  stopped : Bool
deriving DecidableEq

/-- The CameraCapture component state (part_003 lines 5-13): the
`streaming` flag, the stream reference holding the acquired tracks
(`none` before acquisition), the captured frame, the analysis result,
the inline error, and the loading flag. -/
structure CamState where
  streaming : Bool
  streamRef : Option (List MediaTrack)
  captured : Option String
  result : Option String
  error : Option String
  loading : Bool
deriving DecidableEq

/-- Effect of `track.stop()` on one track. -/
def stopTrack (t : MediaTrack) : MediaTrack := { t with stopped := true }

/-- `stopCamera` (part_003 lines 57-62): when a stream reference is
held, stop every track and clear the streaming flag; otherwise do
nothing. -/
def stopCamera (s : CamState) : CamState :=
  match s.streamRef with
  | some tracks =>
      { s with streamRef := some (tracks.map stopTrack), streaming := false }
  | none => s

/-- `captureImage` (part_003 lines 64-76): record the extracted frame
and then release the live feed through `stopCamera`. -/
def captureImage (s : CamState) (frame : String) : CamState :=
  stopCamera { s with captured := some frame }

/-- Every track of the held stream has been stopped. -/
def allTracksStopped (s : CamState) : Bool :=
  (s.streamRef.getD []).all fun t => t.stopped

/-- Claim C7: from the streaming state with the capability held, the
stop action always yields a non-streaming (idle) state with every
media track stopped — with no condition on whether a capture is in
progress — and the capture action itself also releases the live feed
while recording the captured frame. -/
theorem c7_camera_stop_releases (s : CamState) (f : String)
    (tracks : List MediaTrack) (_hstream : s.streaming = true)
    (href : s.streamRef = some tracks) :
    (stopCamera s).streaming = false
    ∧ allTracksStopped (stopCamera s) = true
    ∧ (captureImage s f).streaming = false
    ∧ allTracksStopped (captureImage s f) = true
    ∧ (captureImage s f).captured = some f := by
  refine ⟨?_, ?_, ?_, ?_, ?_⟩ <;>
    simp [stopCamera, captureImage, allTracksStopped, stopTrack, href]

/-- Witness for claim C7 at a streaming state holding two live
tracks while a capture is pending. -/
theorem c7_camera_stop_releases_witness :
    ((⟨true, some [⟨false⟩, ⟨false⟩], some "frame0", none, none, true⟩
        : CamState).streaming = true
    ∧ (⟨true, some [⟨false⟩, ⟨false⟩], some "frame0", none, none, true⟩
        : CamState).streamRef = some [⟨false⟩, ⟨false⟩])
    ∧ ((stopCamera
          ⟨true, some [⟨false⟩, ⟨false⟩], some "frame0", none, none, true⟩).streaming
            = false
      ∧ allTracksStopped (stopCamera
          ⟨true, some [⟨false⟩, ⟨false⟩], some "frame0", none, none, true⟩)
            = true
      ∧ (captureImage
          ⟨true, some [⟨false⟩, ⟨false⟩], some "frame0", none, none, true⟩
          "frame1").streaming = false
      ∧ allTracksStopped (captureImage
          ⟨true, some [⟨false⟩, ⟨false⟩], some "frame0", none, none, true⟩
          "frame1") = true
      ∧ (captureImage
          ⟨true, some [⟨false⟩, ⟨false⟩], some "frame0", none, none, true⟩
          "frame1").captured = some "frame1") :=
  ⟨⟨rfl, rfl⟩,
   c7_camera_stop_releases
     ⟨true, some [⟨false⟩, ⟨false⟩], some "frame0", none, none, true⟩
     "frame1" [⟨false⟩, ⟨false⟩] rfl rfl⟩

/-- The ImageUploader component state (ImageUploader.jsx lines 5-9). -/
structure UpState where
  selectedFile : Option String
  preview : Option String
  result : Option String
  loading : Bool
  error : Option String
deriving DecidableEq

/-- `handleFileSelect` (ImageUploader.jsx lines 11-19): with a chosen
file, record it, derive the object-URL preview, and clear the previous
result and error; with no file, do nothing. -/
def handleFileSelect (s : UpState) (file : Option String) : UpState :=
  match file with
  | some f =>
      { s with selectedFile := some f, preview := some ("blob:" ++ f),
               result := none, error := none }
  | none => s

/-- The synchronous prefix of `startCamera` (part_003 lines 15-26):
clear the inline error and raise the streaming flag before awaiting the
capability. -/
def startCameraBegin (s : CamState) : CamState :=
  { s with error := none, streaming := true }

/-- `retake` (part_003 lines 101-106): clear the captured frame, the
previous result and the previous error, then restart the camera. -/
def retake (s : CamState) : CamState :=
  startCameraBegin { s with captured := none, result := none, error := none }

/-- Claim C10: selecting a new image file always clears the previous
result and error alongside installing the new preview (and selecting
nothing changes nothing), and the camera retake action always clears
the captured frame, previous result and previous error while
restarting the stream. -/
theorem c10_stale_output_reset (s : UpState) (c : CamState) (f : String) :
    (handleFileSelect s (some f)).result = none
    ∧ (handleFileSelect s (some f)).error = none
    ∧ (handleFileSelect s (some f)).selectedFile = some f
    ∧ (handleFileSelect s (some f)).preview = some ("blob:" ++ f)
    ∧ handleFileSelect s none = s
    ∧ (retake c).captured = none
    ∧ (retake c).result = none
    ∧ (retake c).error = none
    ∧ (retake c).streaming = true := by
  refine ⟨rfl, rfl, rfl, rfl, rfl, rfl, rfl, rfl, rfl⟩

/-- The VoiceInput component state (VoiceInput.jsx lines 4-5). -/
structure VoiceState where
  listening : Bool
  supported : Bool
deriving DecidableEq

/-- `startListening` (VoiceInput.jsx lines 7-11): when the environment
exposes no speech-recognition API, mark the component unsupported and
return; otherwise recognition is started and the state changes only
through recognition events. -/
def startListening (envHasApi : Bool) (s : VoiceState) : VoiceState :=
  if envHasApi then s else { s with supported := false }

/-- The `recognition.onerror` handler (VoiceInput.jsx lines 30-32):
clear the listening flag, leaving the button enabled again. -/
def voiceOnError (s : VoiceState) : VoiceState := { s with listening := false }

/-- The VoiceInput render (VoiceInput.jsx lines 41-58): `none` when the
component renders nothing (unsupported), otherwise the disabled flag of
the rendered button. -/
def voiceRender (s : VoiceState) : Option Bool :=
  if s.supported = true then some s.listening else none

/-- End state of a failed `startCamera` (part_003 lines 49-54): the
synchronous prefix runs, then the catch branch records the inline error
and clears the streaming flag. -/
def startCameraFailure (s : CamState) (msg : String) : CamState :=
  { startCameraBegin s with error := some ("Camera error: " ++ msg),
                            streaming := false }

/-- Whether the Start Camera control is rendered (part_003 line 115):
shown when not streaming and no frame is captured. -/
def startControlShown (s : CamState) : Bool :=
  !s.streaming && s.captured.isNone

/-- Claim C8 counterexample: after one attempt to start voice input in
an environment without a speech-recognition API, the VoiceInput
component renders nothing at all — the control is removed rather than
kept with an inline, retryable error (the component state has no error
field to surface). -/
theorem c8_counterexample :
    voiceRender (startListening false ⟨false, true⟩) = none := by
  decide

/-- Claim C8 (amended): a camera capability failure is surfaced as an
inline error with the camera left idle, and the start control is shown
again (recoverable by retry) whenever no captured frame is displayed; a
microphone recognition error resets the listening flag so the still-
rendered button can be retried, though without an inline message; but
an unsupported speech API marks the voice control unsupported, after
which it renders nothing — removed rather than recoverable. -/
theorem c8_capability_failures (s : CamState) (msg : String)
    (vs : VoiceState) :
    (startCameraFailure s msg).error = some ("Camera error: " ++ msg)
    ∧ (startCameraFailure s msg).streaming = false
    ∧ startControlShown (startCameraFailure s msg) = s.captured.isNone
    ∧ (voiceOnError vs).listening = false
    ∧ voiceRender (voiceOnError vs)
        = (if vs.supported = true then some false else none)
    ∧ (startListening false vs).supported = false
    ∧ voiceRender (startListening false vs) = none := by
  refine ⟨rfl, rfl, rfl, rfl, rfl, ?_, ?_⟩ <;>
    simp [startListening, voiceRender]

/-- One durable chat-history entry ({id, title, timestamp}, Sidebar). -/
structure Chat where
  id : String
  title : String
  timestamp : String
deriving DecidableEq

/-- Combined App, Sidebar and ChatBox state relevant to the session
lifecycle: the sidebar history list, its write-through copy in the
durable store (localStorage key ai_lth_chat_history), and the App and
ChatBox presentation state touched by a new chat. The Sidebar props
are not state: they are arguments of the handlers below, and App.jsx
line 25 supplies only onNewChat. -/
structure AppState where
  chatHistory : List Chat
  store : List Chat
  showHero : Bool
  activeTab : String
  chatResetTrigger : Nat
  messages : List CMsg
  input : String
deriving DecidableEq

/-- The ChatBox reset effect (part_002 lines 20-25): when the reset
trigger is truthy, clear the message log and the input field. -/
def applyChatReset (s : AppState) : AppState :=
  if s.chatResetTrigger ≠ 0 then { s with messages := [], input := "" }
  else s

/-- `handleNewChat` (App.jsx lines 12-16) together with the ChatBox
effect it triggers: show the hero, switch to the chat tab, bump the
reset trigger, and let the trigger clear the ChatBox. -/
def handleNewChat (s : AppState) : AppState :=
  applyChatReset
    { s with showHero := true, activeTab := "chat",
             chatResetTrigger := s.chatResetTrigger + 1 }

/-- `handleDeleteChat` (Sidebar, VoiceInput.jsx lines 80-88) together
with the write-through persistence effect (lines 76-78), as a function
of the currentChatId prop the Sidebar receives: filter the deleted id
out of the history, rewrite the store with the new list, and call
onNewChat (wired to App.handleNewChat) when the prop equals the
deleted id. -/
def handleDeleteChat (currentChatId : Option String) (s : AppState)
    (chatId : String) : AppState :=
  let afterFilter :=
    { s with chatHistory := s.chatHistory.filter fun c => c.id != chatId }
  let afterStore := { afterFilter with store := afterFilter.chatHistory }
  if currentChatId = some chatId then handleNewChat afterStore
  else afterStore

/-- The delete action of the composed application: App.jsx line 25
renders the Sidebar as `Sidebar onNewChat=...` without a currentChatId
prop, so inside `handleDeleteChat` that prop is undefined (`none`) and
the comparison with the deleted id is always false. -/
def appDeleteChat (s : AppState) (chatId : String) : AppState :=
  handleDeleteChat none s chatId

/-- Claim C9 (code-bug evidence): in the composed application,
deleting the chat the user is currently viewing removes its id from
the history and rewrites the durable store, but no fresh empty session
becomes active — the message log, input and hero state are untouched.
The guard in the Sidebar delete handler (its comment announces
triggering a new chat when deleting the current one) is dead code
because App.jsx line 25 never passes the currentChatId prop it
compares against. -/
theorem c9_delete_no_fresh_session :
    appDeleteChat
        ⟨[⟨"c1", "Panadol", "t1"⟩, ⟨"c2", "Aspirin", "t2"⟩],
          [⟨"c1", "Panadol", "t1"⟩, ⟨"c2", "Aspirin", "t2"⟩],
          false, "chat", 0, [CMsg.user "hi"], "next"⟩ "c1"
      = ⟨[⟨"c2", "Aspirin", "t2"⟩], [⟨"c2", "Aspirin", "t2"⟩],
          false, "chat", 0, [CMsg.user "hi"], "next"⟩ := by
  decide
